import Mathlib

/-
Verification development for the ocs-client-operator ClusterVersion
reconciler (src/controllers/clusterversion_controller.go).

The Go controller is shallowly embedded: Kubernetes client results are
explicit values (an `Except KErr` for a single get, a `Cluster` record for
the state-based reconciliation model), Go maps are association lists, and
Go byte slices are lists of naturals.  Functions from packages that are not
part of this repository snapshot (pkg/csi, pkg/console, pkg/templates,
pkg/utils) are either taken as parameters (pure desired-state functions)
or modelled from the spec, as marked in their doc comments.
-/

namespace OCS

/-- Association-list data of a Kubernetes ConfigMap (a Go `map[string]string`). -/
abbrev CMData := List (String × String)

/-- Label map of a Kubernetes object (a Go `map[string]string`). -/
abbrev LabelMap := List (String × String)

/-- Go map lookup `m[k]` returning an `Option`. -/
def lookupKey (m : List (String × String)) (k : String) : Option String :=
  (m.find? (fun p => p.1 = k)).map (fun p => p.2)

/-- Go map assignment `m[k] = v`: overwrites the binding when the key is
already present, otherwise appends it. -/
def mapInsert (m : List (String × String)) (k v : String) : List (String × String) :=
  if m.any (fun p => p.1 = k) then
    m.map (fun p => if p.1 = k then (k, v) else p)
  else m ++ [(k, v)]

/- Constants from the source (clusterversion_controller.go, const block). -/

def operatorConfigMapName : String := "ocs-client-operator-config"

def clusterVersionName : String := "version"

def deployCSIKey : String := "DEPLOY_CSI"

def subscriptionLabelKey : String := "managed-by"

def subscriptionLabelValue : String := "webhook.subscription.ocs.openshift.io"

/-- Modelled from the spec: `templates.SubscriptionWebhookName` (pkg/templates,
not under src/) is the well-known constant name of the cluster-scoped webhook
registration; its exact value is irrelevant to every claim. -/
def subscriptionWebhookName : String := "subscription.ocs.openshift.io"

/-- Kubernetes API error kinds distinguished by the controller
(`kerrors.IsNotFound`, `kerrors.IsAlreadyExists`); `internalErr` stands for
any other transport or server error. -/
inductive KErr where
  | notFound
  | alreadyExists
  | conflict
  | internalErr
  deriving DecidableEq

/-- Go `strconv.ParseBool`: accepts exactly 1, t, T, TRUE, true, True,
0, f, F, FALSE, false, False. -/
def goParseBool (s : String) : Except Unit Bool :=
  if s = "1" || s = "t" || s = "T" || s = "TRUE" || s = "true" || s = "True" then
    .ok true
  else if s = "0" || s = "f" || s = "F" || s = "FALSE" || s = "false" || s = "False" then
    .ok false
  else .error ()

/-- Errors of `getDeployCSIConfig`, mirroring its three `fmt.Errorf` sites. -/
inductive DeployErr where
  | getConfigMapFailed (e : KErr)
  | parseFailed
  | crdProbeFailed (e : KErr)
  deriving DecidableEq

/-- Embedding of `getDeployCSIConfig` (clusterversion_controller.go:486).
`cmGet` is the result of `c.get(operatorConfig)`: on success it carries the
the `Data` field of the config map, which may be `nil` (`none`).  `crdGet` is the
result of `c.get(storageClusterCRD)` for the
`storageclusters.ocs.openshift.io` CRD metadata probe.  Returns the Go pair
`(bool, error)`. -/
def getDeployCSIConfig (cmGet : Except KErr (Option CMData))
    (crdGet : Except KErr Unit) : Bool × Option DeployErr :=
  match cmGet with
  | .error e => (false, some (.getConfigMapFailed e))
  | .ok d =>
    let data := d.getD []
    match lookupKey data deployCSIKey with
    | some value =>
      match goParseBool value with
      | .ok b => (b, none)
      | .error _ => (false, some .parseFailed)
    | none =>
      match crdGet with
      | .error e =>
        if e ≠ KErr.notFound then (false, some (.crdProbeFailed e))
        else (true, none)
      | .ok _ => (false, none)

/-- Embedding of `getOperatorConfig` (clusterversion_controller.go:406):
a `NotFound` get leaves the freshly allocated, empty config map in place and
returns it without error; any other error propagates; data of a found map is
returned as-is. -/
def getOperatorConfig (cmGet : Except KErr CMData) : Except KErr CMData :=
  match cmGet with
  | .error e => if e = KErr.notFound then .ok [] else .error e
  | .ok cm => .ok cm

/- Label parsing (`applyLabels`, clusterversion_controller.go:387).
Strings are processed as character lists so that the Go `strings` helpers
can be embedded structurally. -/

/-- The ASCII whitespace set of Go `strings.TrimSpace`
(space, tab, newline, vertical tab, form feed, carriage return); Unicode
space characters beyond ASCII, which TrimSpace also strips, are not
modelled as no input here contains them. -/
def goIsSpace (c : Char) : Bool :=
  c = ' ' || c = '\t' || c = '\n' || c = '\x0b' || c = '\x0c' || c = '\r'

/-- Go `strings.TrimSpace` on a character list. -/
def trimSpaceChars (s : List Char) : List Char :=
  ((s.dropWhile goIsSpace).reverse.dropWhile goIsSpace).reverse

/-- Go `strings.Split(s, sep)` for a one-character separator:
splits around every occurrence; the empty input yields one empty field. -/
def splitOnChar (c : Char) : List Char → List (List Char)
  | [] => [[]]
  | x :: xs =>
    match splitOnChar c xs with
    | [] => if x = c then [[], []] else [[x]]
    | y :: ys => if x = c then [] :: y :: ys else (x :: y) :: ys

/-- Go `strings.SplitN(line, sep, 2)` for the one-character separator used by
`applyLabels`: two fields split at the first colon when one occurs, otherwise
the whole line as a single field. -/
def splitN2Colon (line : List Char) : List (List Char) :=
  if line.contains ':' then
    [line.takeWhile (fun c => c ≠ ':'), (line.dropWhile (fun c => c ≠ ':')).tail]
  else [line]

/-- One iteration of the `applyLabels` loop body on a non-skipped line:
`parts := strings.SplitN(line, ":", 2)` followed by the `parts[0]` and
`parts[1]` accesses; `none` models the index-out-of-range panic when
`parts` has fewer than two elements. -/
def applyLabelsLine (m : LabelMap) (line : List Char) : Option LabelMap :=
  if line.isEmpty then some m
  else
    match splitN2Colon line with
    | p0 :: p1 :: _ =>
      some (mapInsert m (String.mk (trimSpaceChars p0)) (String.mk (trimSpaceChars p1)))
    | _ => none

/-- Folding step threading the possibly-panicked state through the loop. -/
def applyLabelsFold (m : Option LabelMap) (line : List Char) : Option LabelMap :=
  match m with
  | none => none
  | some mm => applyLabelsLine mm line

/-- Embedding of `applyLabels` (clusterversion_controller.go:387): split the
input on newlines, skip empty lines, split each line at the first colon, trim
both sides, and build the label map; `none` models the `parts[1]` panic on a
non-empty line without a colon. -/
def applyLabels (label : String) : Option LabelMap :=
  (splitOnChar '\n' label.toList).foldl applyLabelsFold (some [])

/- Webhook registration (`reconcileSubscriptionValidatingWebhook`,
clusterversion_controller.go:533). -/

/-- The `ClientConfig` of an admission webhook: the CA bundle (a Go byte
slice, `nil` embedded as `[]`) and the service reference fields touched or
carried by the controller. -/
structure WebhookClientConfig where
  caBundle : List Nat
  serviceNamespace : String
  serviceName : String
  servicePath : String
  deriving DecidableEq

/-- One `ValidatingWebhook` entry: the fields explicitly set by the mutate
function plus the remaining admissionregistration fields that come from the
deep-copied template (`rules`, `failurePolicy`, `sideEffects`,
`timeoutSeconds` standing for that remainder). -/
structure ValidatingWebhook where
  name : String
  clientConfig : WebhookClientConfig
  namespaceSelector : Option LabelMap
  objectSelector : Option LabelMap
  rules : List String
  failurePolicy : String
  sideEffects : String
  timeoutSeconds : Int
  deriving DecidableEq

/-- A `ValidatingWebhookConfiguration` object. -/
structure ValidatingWebhookConfiguration where
  name : String
  annotations : LabelMap
  webhooks : List ValidatingWebhook
  deriving DecidableEq

/-- Embedding of the mutate closure passed to `createOrUpdate` in
`reconcileSubscriptionValidatingWebhook` (clusterversion_controller.go:538).
`tmpl` is `templates.SubscriptionValidatingWebhook` (pkg/templates, not under
src/), taken as a parameter.  The closure: sets the inject-cabundle
marker; snapshots `Webhooks[0].ClientConfig.CABundle` when a webhook
already exists (allocating one slot otherwise); deep-copies the template into
slot 0; then overwrites name, namespace selector, object selector, restores
the snapshotted CA bundle, and points the service at the operator
namespace. -/
def reconcileSubscriptionValidatingWebhookMutate (operatorNamespace : String)
    (tmpl : ValidatingWebhook) (whConfig : ValidatingWebhookConfiguration) :
    ValidatingWebhookConfiguration :=
  let annotations : LabelMap := [("service.beta.openshift.io/inject-cabundle", "true")]
  let caBundle : List Nat :=
    match whConfig.webhooks with
    | [] => []
    | w :: _ => w.clientConfig.caBundle
  let rest : List ValidatingWebhook :=
    match whConfig.webhooks with
    | [] => []
    | _ :: ws => ws
  let wh : ValidatingWebhook :=
    { tmpl with
      name := whConfig.name
      namespaceSelector := some [("kubernetes.io/metadata.name", operatorNamespace)]
      objectSelector := some [(subscriptionLabelKey, subscriptionLabelValue)]
      clientConfig := { tmpl.clientConfig with
        caBundle := caBundle
        serviceNamespace := operatorNamespace } }
  { whConfig with annotations := annotations, webhooks := wh :: rest }

/- Sticky concurrency tokens (Reconcile lines 197-203, ensureConsolePlugin
lines 470-476). -/

/-- A `SecurityContextConstraints` object: its server-assigned
`resourceVersion` token and `content` standing for every other field. -/
structure SecurityContextConstraints where
  resourceVersion : String
  content : String
  deriving DecidableEq

/-- Embedding of the SCC mutate closure (clusterversion_controller.go:197):
snapshot the fetched `ResourceVersion`, apply the fully-overwriting
desired-state function, restore the snapshot.  `desired` is the result of
`csi.SetSecurityContextConstraintsDesiredState` (pkg/csi, not under src/),
taken as a parameter per the spec, which says these desired-state functions
fully overwrite the contents of the object. -/
def sccMutate (desired : SecurityContextConstraints)
    (scc : SecurityContextConstraints) : SecurityContextConstraints :=
  let resourceVersion := scc.resourceVersion
  let scc1 := desired
  { scc1 with resourceVersion := resourceVersion }

/-- A `ConsolePlugin` object: its `resourceVersion` token and `content`
standing for every other field. -/
structure ConsolePlugin where
  resourceVersion : String
  content : String
  deriving DecidableEq

/-- Embedding of the console-plugin mutate closure
(clusterversion_controller.go:470): snapshot the fetched `ResourceVersion`,
deep-copy the freshly computed desired plugin (`console.GetConsolePlugin`,
pkg/console, not under src/, taken as the parameter `desired`) over the
object, restore the snapshot. -/
def consolePluginMutate (desired : ConsolePlugin) (cp : ConsolePlugin) : ConsolePlugin :=
  let resourceVersion := cp.resourceVersion
  let cp1 := desired
  { cp1 with resourceVersion := resourceVersion }

/- Event routing (`SetupWithManager`, clusterversion_controller.go:88). -/

/-- The identity of a watched object as seen by the predicate functions
(`client.GetNamespace()`, `client.GetName()`). -/
structure WatchedObject where
  nspace : String
  name : String
  deriving DecidableEq

/-- A reconcile request (`reconcile.Request`). -/
structure Request where
  nspace : String
  name : String
  deriving DecidableEq

/-- Embedding of `enqueueClusterVersionRequest`
(clusterversion_controller.go:103): ignores the changed object and returns
one request for the constant `clusterVersionName`, with no namespace. -/
def enqueueClusterVersionRequest (_o : WatchedObject) : List Request :=
  [{ nspace := "", name := clusterVersionName }]

/-- Embedding of `configMapPredicates` (clusterversion_controller.go:93). -/
def configMapPredicate (operatorNamespace : String) (o : WatchedObject) : Bool :=
  o.nspace = operatorNamespace && o.name = operatorConfigMapName

/-- Embedding of the namespace filter of `subscriptionPredicates`
(clusterversion_controller.go:113). -/
def subscriptionNamespacePredicate (operatorNamespace : String) (o : WatchedObject) : Bool :=
  o.nspace = operatorNamespace

/-- Embedding of `webhookPredicates` (clusterversion_controller.go:122). -/
def webhookNamePredicate (o : WatchedObject) : Bool :=
  o.name = subscriptionWebhookName

/-- Config-map watch: events pass the predicate filter and are then mapped by
`enqueueClusterVersionRequest`; filtered-out events produce no request. -/
def routeConfigMapEvent (operatorNamespace : String) (o : WatchedObject) : List Request :=
  if configMapPredicate operatorNamespace o then enqueueClusterVersionRequest o else []

/-- CRD metadata watch: no predicate, every event is mapped. -/
def routeCRDEvent (o : WatchedObject) : List Request :=
  enqueueClusterVersionRequest o

/-- Subscription watch: the namespace predicate and
`predicate.LabelChangedPredicate` (labels of the update differ) are both
required before the event is mapped. -/
def routeSubscriptionEvent (operatorNamespace : String) (o : WatchedObject)
    (oldLabels newLabels : LabelMap) : List Request :=
  if subscriptionNamespacePredicate operatorNamespace o && !(oldLabels == newLabels) then
    enqueueClusterVersionRequest o
  else []

/-- Webhook-configuration watch: the name predicate gates the mapping. -/
def routeWebhookEvent (o : WatchedObject) : List Request :=
  if webhookNamePredicate o then enqueueClusterVersionRequest o else []

/- State-based model of a full `Reconcile` pass
(clusterversion_controller.go:158). -/

/-- A Subscription in the operator namespace (`opv1a1.Subscription`):
its name, `Spec.Package`, and labels. -/
structure Subscription where
  name : String
  package : String
  labels : LabelMap
  deriving DecidableEq

/-- A workload-like managed object whose desired state fully overwrites it
(deployments, daemonsets, CSI driver descriptors); `content` stands for the
whole object. -/
structure Workload where
  content : String
  deriving DecidableEq

/-- The PrometheusRule object: the labels written by `applyLabels` and
`content` standing for the decoded rule body. -/
structure PrometheusRule where
  labels : LabelMap
  content : String
  deriving DecidableEq

/-- The remote store as seen through the fixed identities this controller
touches: `none` means the object is absent (a get returns `NotFound`). -/
structure Cluster where
  webhookConfiguration : Option ValidatingWebhookConfiguration
  subscriptions : List Subscription
  consoleDeploymentExists : Bool
  nginxConfigMap : Option CMData
  consoleService : Option String
  consolePlugin : Option ConsolePlugin
  operatorConfigMap : Option CMData
  storageClusterCRDExists : Bool
  clusterVersion : Option String
  scc : Option SecurityContextConstraints
  monConfigMap : Option CMData
  encConfigMap : Option CMData
  cephFSDeployment : Option Workload
  cephFSDaemonSet : Option Workload
  rbdDeployment : Option Workload
  rbdDaemonSet : Option Workload
  cephFSCSIDriver : Option Workload
  rbdCSIDriver : Option Workload
  prometheusRule : Option PrometheusRule
  deriving DecidableEq

/-- The managed-object identities, used to tag writes. -/
inductive Target where
  | webhookConfiguration
  | subscription
  | nginxConfigMap
  | consoleService
  | consolePlugin
  | scc
  | monConfigMap
  | encConfigMap
  | cephFSDeployment
  | cephFSDaemonSet
  | rbdDeployment
  | rbdDaemonSet
  | cephFSCSIDriver
  | rbdCSIDriver
  | prometheusRule
  deriving DecidableEq

/-- A store-mutating remote call.  A create attempt that the server rejects
with `AlreadyExists` does not mutate the store and is not recorded. -/
inductive WriteOp where
  | create
  | update
  deriving DecidableEq

structure WriteEvent where
  target : Target
  op : WriteOp
  deriving DecidableEq

/-- The errors a modelled pass can abort with, one per abort site of
`Reconcile` reachable in the state model. -/
inductive ReconcileErr where
  | subscriptionNotFound
  | consoleDeploymentNotFound
  | deployCSIPrecheckFailed (e : DeployErr)
  | clusterVersionNotFound
  | sidecarsInitFailed
  | prometheusRuleDecodeFailed
  | labelsIndexOutOfRange
  deriving DecidableEq

/-- Result of a (possibly partial) pass: the store after the writes that did
happen, those writes in order, and the error that aborted the pass, if any. -/
structure Outcome where
  cluster : Cluster
  writes : List WriteEvent
  error : Option ReconcileErr
  deriving DecidableEq

/-- Sequencing of pass fragments: an already-failed outcome short-circuits,
otherwise the next fragment runs on the accumulated store and the write logs
are concatenated. -/
def Outcome.andThen (o : Outcome) (f : Cluster → Outcome) : Outcome :=
  match o.error with
  | some _ => o
  | none =>
    let o2 := f o.cluster
    { cluster := o2.cluster, writes := o.writes ++ o2.writes, error := o2.error }

/-- Embedding of `controllerutil.CreateOrUpdate` as used via
`c.createOrUpdate` (clusterversion_controller.go:369): a `NotFound` get
mutates the caller-constructed shell `init` and creates it; otherwise the
fetched object is mutated in place and an update is issued only when the
result differs from what was fetched. -/
def createOrUpdate {α : Type} [DecidableEq α] (t : Target) (cur : Option α)
    (init : α) (mutate : α → α) : α × List WriteEvent :=
  match cur with
  | none => (mutate init, [⟨t, .create⟩])
  | some existing =>
    let obj := mutate existing
    if obj = existing then (existing, []) else (obj, [⟨t, .update⟩])

/-- Embedding of the write-once pattern (clusterversion_controller.go:224
and :245): `c.create` with an `AlreadyExists` error swallowed — the store
keeps the existing object untouched and no update is ever issued.  Also used
for `csi.CreateCSIDriver` (pkg/csi, not under src/), modelled from the spec:
the driver descriptors are create-if-absent. -/
def createIfAbsent {α : Type} (t : Target) (cur : Option α) (desired : α) :
    α × List WriteEvent :=
  match cur with
  | none => (desired, [⟨t, .create⟩])
  | some existing => (existing, [])

/-- The desired-state inputs of one pass that come from packages outside this
repository snapshot (pkg/templates, pkg/console, pkg/csi), taken as
parameters since the spec treats desired-state functions as external
collaborators, already applied to the fixed namespace and port of the pass. -/
structure Externals where
  subscriptionWebhookTemplate : ValidatingWebhook
  nginxConf : String
  consoleServiceDesired : String
  consolePluginDesired : ConsolePlugin
  sccDesired : SecurityContextConstraints
  cephFSDeploymentDesired : Workload
  cephFSDaemonSetDesired : Workload
  rbdDeploymentDesired : Workload
  rbdDaemonSetDesired : Workload
  cephFSCSIDriverDesired : Workload
  rbdCSIDriverDesired : Workload
  prometheusRuleContent : Option String
  sidecarsOk : String → Bool

/-- Step 1 of `Reconcile` (line 163): `reconcileSubscriptionValidatingWebhook`
runs a create-or-update of the webhook configuration; in the state model it
cannot fail. -/
def stepWebhook (ext : Externals) (operatorNamespace : String) (cl : Cluster) : Outcome :=
  let init : ValidatingWebhookConfiguration :=
    { name := subscriptionWebhookName, annotations := [], webhooks := [] }
  let r := createOrUpdate .webhookConfiguration cl.webhookConfiguration init
    (reconcileSubscriptionValidatingWebhookMutate operatorNamespace
      ext.subscriptionWebhookTemplate)
  ⟨{ cl with webhookConfiguration := some r.1 }, r.2, none⟩

/-- Go predicate `sub.Spec.Package == "ocs-client-operator"` from
`labelClientOperatorSubscription` (line 593). -/
def isClientOperatorSubscription (s : Subscription) : Bool :=
  s.package = "ocs-client-operator"

/-- Update of the first list element satisfying a predicate, matching the
in-place mutation through the pointer returned by `utils.Find`. -/
def updateFirst {α : Type} (p : α → Bool) (f : α → α) : List α → List α
  | [] => []
  | x :: xs => if p x then f x :: xs else x :: updateFirst p f xs

/-- Step 2 of `Reconcile` (line 168): `labelClientOperatorSubscription`.
`utils.Find` (pkg/utils, not under src/) is the first list element matching
the predicate; `utils.AddLabel` is modelled from the spec ("label the
external subscription object if not already labeled, early-exit if the label
is already present"): it sets the label and reports a change only when the
key does not already carry the value.  No matching subscription is a hard
error; an update is issued only when the label actually changed. -/
def stepLabelSubscription (cl : Cluster) : Outcome :=
  match cl.subscriptions.find? isClientOperatorSubscription with
  | none => ⟨cl, [], some .subscriptionNotFound⟩
  | some sub =>
    if lookupKey sub.labels subscriptionLabelKey = some subscriptionLabelValue then
      ⟨cl, [], none⟩
    else
      ⟨{ cl with subscriptions := (updateFirst isClientOperatorSubscription
          (fun s => { s with labels := mapInsert s.labels subscriptionLabelKey subscriptionLabelValue })
          cl.subscriptions) },
        [⟨.subscription, .update⟩], none⟩

/-- Step 3 of `Reconcile` (line 173): `ensureConsolePlugin`.  A missing
console deployment fails the step (line 423); then the nginx config map, the
console service (whose desired state fully overwrites the object, resource
version included), and the console plugin (sticky resource version) are each
created-or-updated. -/
def stepConsole (ext : Externals) (cl : Cluster) : Outcome :=
  if cl.consoleDeploymentExists then
    let r1 := createOrUpdate .nginxConfigMap cl.nginxConfigMap
      [("nginx.conf", ext.nginxConf)]
      (fun cm => if (lookupKey cm "nginx.conf").getD "" = ext.nginxConf then cm
                 else mapInsert cm "nginx.conf" ext.nginxConf)
    let r2 := createOrUpdate .consoleService cl.consoleService
      ext.consoleServiceDesired (fun _ => ext.consoleServiceDesired)
    let r3 := createOrUpdate .consolePlugin cl.consolePlugin
      ext.consolePluginDesired (consolePluginMutate ext.consolePluginDesired)
    ⟨{ cl with nginxConfigMap := some r1.1, consoleService := some r2.1, consolePlugin := some r3.1 },
      r1.2 ++ r2.2 ++ r3.2, none⟩
  else ⟨cl, [], some .consoleDeploymentNotFound⟩

/-- The flag resolution of step 4 read off the modelled store: an absent
config map is a `NotFound` get, the CRD probe reports existence. -/
def getDeployCSIConfigState (cl : Cluster) : Bool × Option DeployErr :=
  getDeployCSIConfig
    (match cl.operatorConfigMap with
     | some d => .ok (some d)
     | none => .error .notFound)
    (if cl.storageClusterCRDExists then .ok () else .error .notFound)

/-- The CSI branch of `Reconcile` (lines 182-363), run only when the flag
resolved to true: fetch the version of the trigger object, initialize sidecars,
create-or-update the SCC (sticky resource version), create the two
write-once config maps, create-or-update the four workloads, create the two
driver descriptors, decode the embedded rule and create-or-update it with
labels parsed from the operator config (an absent config map reads as empty
there, per `getOperatorConfig`). -/
def stepCSI (ext : Externals) (cl : Cluster) : Outcome :=
  match cl.clusterVersion with
  | none => ⟨cl, [], some .clusterVersionNotFound⟩
  | some version =>
    if ext.sidecarsOk version then
      let r1 := createOrUpdate .scc cl.scc
        { resourceVersion := "", content := "" } (sccMutate ext.sccDesired)
      let cl1 := { cl with scc := some r1.1 }
      let r2 := createIfAbsent .monConfigMap cl1.monConfigMap [("config.json", "[]")]
      let cl2 := { cl1 with monConfigMap := some r2.1 }
      let r3 := createIfAbsent .encConfigMap cl2.encConfigMap [("config.json", "[]")]
      let cl3 := { cl2 with encConfigMap := some r3.1 }
      let r4 := createOrUpdate .cephFSDeployment cl3.cephFSDeployment
        ext.cephFSDeploymentDesired (fun _ => ext.cephFSDeploymentDesired)
      let cl4 := { cl3 with cephFSDeployment := some r4.1 }
      let r5 := createOrUpdate .cephFSDaemonSet cl4.cephFSDaemonSet
        ext.cephFSDaemonSetDesired (fun _ => ext.cephFSDaemonSetDesired)
      let cl5 := { cl4 with cephFSDaemonSet := some r5.1 }
      let r6 := createOrUpdate .rbdDeployment cl5.rbdDeployment
        ext.rbdDeploymentDesired (fun _ => ext.rbdDeploymentDesired)
      let cl6 := { cl5 with rbdDeployment := some r6.1 }
      let r7 := createOrUpdate .rbdDaemonSet cl6.rbdDaemonSet
        ext.rbdDaemonSetDesired (fun _ => ext.rbdDaemonSetDesired)
      let cl7 := { cl6 with rbdDaemonSet := some r7.1 }
      let r8 := createIfAbsent .cephFSCSIDriver cl7.cephFSCSIDriver ext.cephFSCSIDriverDesired
      let cl8 := { cl7 with cephFSCSIDriver := some r8.1 }
      let r9 := createIfAbsent .rbdCSIDriver cl8.rbdCSIDriver ext.rbdCSIDriverDesired
      let cl9 := { cl8 with rbdCSIDriver := some r9.1 }
      let ws := r1.2 ++ r2.2 ++ r3.2 ++ r4.2 ++ r5.2 ++ r6.2 ++ r7.2 ++ r8.2 ++ r9.2
      match ext.prometheusRuleContent with
      | none => ⟨cl9, ws, some .prometheusRuleDecodeFailed⟩
      | some promContent =>
        let opData := cl9.operatorConfigMap.getD []
        match applyLabels ((lookupKey opData "OCS_METRICS_LABELS").getD "") with
        | none => ⟨cl9, ws, some .labelsIndexOutOfRange⟩
        | some lbls =>
          let r10 := createOrUpdate .prometheusRule cl9.prometheusRule
            { labels := lbls, content := promContent }
            (fun p => { p with labels := lbls })
          ⟨{ cl9 with prometheusRule := some r10.1 }, ws ++ r10.2, none⟩
    else ⟨cl, [], some .sidecarsInitFailed⟩

/-- Step 4 of `Reconcile` (line 178): resolve the flag; a resolution error
aborts the pass, `false` ends the pass successfully with no further writes,
`true` runs the CSI branch. -/
def stepFlagAndCSI (ext : Externals) (cl : Cluster) : Outcome :=
  match getDeployCSIConfigState cl with
  | (_, some e) => ⟨cl, [], some (.deployCSIPrecheckFailed e)⟩
  | (true, none) => stepCSI ext cl
  | (false, none) => ⟨cl, [], none⟩

/-- One full `Reconcile` pass (clusterversion_controller.go:158): webhook,
subscription labeling, console plugin, flag resolution and CSI branch, in
the order of the source, each step aborting the rest on error. -/
def reconcile (ext : Externals) (operatorNamespace : String) (cl : Cluster) : Outcome :=
  (((stepWebhook ext operatorNamespace cl).andThen
    stepLabelSubscription).andThen
    (stepConsole ext)).andThen
    (stepFlagAndCSI ext)

/-- The CSI-managed slice of the store (the targets of claim C7: the SCC,
the two write-once config maps, the four workloads, the two driver
descriptors, the Prometheus rule). -/
def csiState (cl : Cluster) :
    Option SecurityContextConstraints × Option CMData × Option CMData ×
    Option Workload × Option Workload × Option Workload × Option Workload ×
    Option Workload × Option Workload × Option PrometheusRule :=
  (cl.scc, cl.monConfigMap, cl.encConfigMap, cl.cephFSDeployment, cl.cephFSDaemonSet,
   cl.rbdDeployment, cl.rbdDaemonSet, cl.cephFSCSIDriver, cl.rbdCSIDriver, cl.prometheusRule)

/- Helper lemmas about the synchronizer primitives and sequencing. -/

theorem createOrUpdate_writes_mem {α : Type} [DecidableEq α] {t : Target}
    {cur : Option α} {init : α} {mutate : α → α} {w : WriteEvent}
    (h : w ∈ (createOrUpdate t cur init mutate).2) : w.target = t := by
  unfold createOrUpdate at h
  cases cur with
  | none => simp at h; subst h; rfl
  | some existing =>
    by_cases he : mutate existing = existing
    · simp [he] at h
    · simp [he] at h; subst h; rfl

theorem createIfAbsent_writes_mem {α : Type} {t : Target} {cur : Option α}
    {desired : α} {w : WriteEvent}
    (h : w ∈ (createIfAbsent t cur desired).2) :
    w.target = t ∧ w.op = WriteOp.create ∧ cur = none := by
  unfold createIfAbsent at h
  cases cur with
  | none => simp at h; subst h; exact ⟨rfl, rfl, rfl⟩
  | some existing => simp at h

theorem andThen_none {o : Outcome} {f : Cluster → Outcome} (h : o.error = none) :
    o.andThen f =
      ⟨(f o.cluster).cluster, o.writes ++ (f o.cluster).writes, (f o.cluster).error⟩ := by
  unfold Outcome.andThen; rw [h]

theorem andThen_some {o : Outcome} {f : Cluster → Outcome} {e : ReconcileErr}
    (h : o.error = some e) : o.andThen f = o := by
  unfold Outcome.andThen; rw [h]

/- Per-step frame lemmas. -/

theorem stepWebhook_spec (ext : Externals) (ns : String) (cl : Cluster) :
    (stepWebhook ext ns cl).error = none ∧
    (stepWebhook ext ns cl).cluster.subscriptions = cl.subscriptions ∧
    (stepWebhook ext ns cl).cluster.consoleDeploymentExists = cl.consoleDeploymentExists ∧
    (stepWebhook ext ns cl).cluster.nginxConfigMap = cl.nginxConfigMap ∧
    (stepWebhook ext ns cl).cluster.consoleService = cl.consoleService ∧
    (stepWebhook ext ns cl).cluster.consolePlugin = cl.consolePlugin ∧
    (stepWebhook ext ns cl).cluster.operatorConfigMap = cl.operatorConfigMap ∧
    (stepWebhook ext ns cl).cluster.storageClusterCRDExists = cl.storageClusterCRDExists ∧
    (stepWebhook ext ns cl).cluster.clusterVersion = cl.clusterVersion ∧
    csiState (stepWebhook ext ns cl).cluster = csiState cl ∧
    ∀ w ∈ (stepWebhook ext ns cl).writes, w.target = Target.webhookConfiguration := by
  refine ⟨rfl, rfl, rfl, rfl, rfl, rfl, rfl, rfl, rfl, rfl, ?_⟩
  intro w hw
  exact createOrUpdate_writes_mem hw

theorem stepLabelSubscription_none {cl : Cluster}
    (h : cl.subscriptions.find? isClientOperatorSubscription = none) :
    stepLabelSubscription cl = ⟨cl, [], some .subscriptionNotFound⟩ := by
  unfold stepLabelSubscription; rw [h]

theorem stepLabelSubscription_some_spec {cl : Cluster} {sub : Subscription}
    (h : cl.subscriptions.find? isClientOperatorSubscription = some sub) :
    (stepLabelSubscription cl).error = none ∧
    (stepLabelSubscription cl).cluster.webhookConfiguration = cl.webhookConfiguration ∧
    (stepLabelSubscription cl).cluster.consoleDeploymentExists = cl.consoleDeploymentExists ∧
    (stepLabelSubscription cl).cluster.nginxConfigMap = cl.nginxConfigMap ∧
    (stepLabelSubscription cl).cluster.consoleService = cl.consoleService ∧
    (stepLabelSubscription cl).cluster.consolePlugin = cl.consolePlugin ∧
    (stepLabelSubscription cl).cluster.operatorConfigMap = cl.operatorConfigMap ∧
    (stepLabelSubscription cl).cluster.storageClusterCRDExists = cl.storageClusterCRDExists ∧
    (stepLabelSubscription cl).cluster.clusterVersion = cl.clusterVersion ∧
    csiState (stepLabelSubscription cl).cluster = csiState cl ∧
    (∀ w ∈ (stepLabelSubscription cl).writes,
      w = ⟨Target.subscription, WriteOp.update⟩) ∧
    ((stepLabelSubscription cl).writes = [] ↔
      lookupKey sub.labels subscriptionLabelKey = some subscriptionLabelValue) := by
  unfold stepLabelSubscription
  rw [h]
  by_cases hl : lookupKey sub.labels subscriptionLabelKey = some subscriptionLabelValue
  · simp [csiState, hl]
  · simp [csiState, hl]

theorem stepConsole_spec (ext : Externals) {cl : Cluster}
    (h : cl.consoleDeploymentExists = true) :
    (stepConsole ext cl).error = none ∧
    (stepConsole ext cl).cluster.webhookConfiguration = cl.webhookConfiguration ∧
    (stepConsole ext cl).cluster.subscriptions = cl.subscriptions ∧
    (stepConsole ext cl).cluster.operatorConfigMap = cl.operatorConfigMap ∧
    (stepConsole ext cl).cluster.storageClusterCRDExists = cl.storageClusterCRDExists ∧
    (stepConsole ext cl).cluster.clusterVersion = cl.clusterVersion ∧
    csiState (stepConsole ext cl).cluster = csiState cl ∧
    ∀ w ∈ (stepConsole ext cl).writes,
      w.target = Target.nginxConfigMap ∨ w.target = Target.consoleService ∨
      w.target = Target.consolePlugin := by
  unfold stepConsole
  rw [h]
  refine ⟨rfl, rfl, rfl, rfl, rfl, rfl, rfl, ?_⟩
  intro w hw
  rcases List.mem_append.1 hw with hw2 | hw2
  · rcases List.mem_append.1 hw2 with hw3 | hw3
    · exact Or.inl (createOrUpdate_writes_mem hw3)
    · exact Or.inr (Or.inl (createOrUpdate_writes_mem hw3))
  · exact Or.inr (Or.inr (createOrUpdate_writes_mem hw2))

theorem stepConsole_missing {cl : Cluster}
    (ext : Externals) (h : cl.consoleDeploymentExists = false) :
    stepConsole ext cl = ⟨cl, [], some .consoleDeploymentNotFound⟩ := by
  unfold stepConsole; rw [h]; rfl

/-- The flag resolution only reads the operator config map and the CRD
presence, so it transports along any two clusters agreeing there. -/
theorem getDeployCSIConfigState_congr {cl cl' : Cluster}
    (h1 : cl.operatorConfigMap = cl'.operatorConfigMap)
    (h2 : cl.storageClusterCRDExists = cl'.storageClusterCRDExists) :
    getDeployCSIConfigState cl = getDeployCSIConfigState cl' := by
  unfold getDeployCSIConfigState
  rw [h1, h2]

theorem stepFlagAndCSI_false {cl : Cluster} (ext : Externals)
    (h : getDeployCSIConfigState cl = (false, none)) :
    stepFlagAndCSI ext cl = ⟨cl, [], none⟩ := by
  unfold stepFlagAndCSI
  rw [h]

theorem stepFlagAndCSI_err {cl : Cluster} (ext : Externals) {e : DeployErr}
    (h : getDeployCSIConfigState cl = (false, some e)) :
    stepFlagAndCSI ext cl = ⟨cl, [], some (.deployCSIPrecheckFailed e)⟩ := by
  unfold stepFlagAndCSI
  rw [h]

/- Write-once discipline of the monitoring and encryption config maps. -/

/-- A write is harmless for the two write-once maps: if it touches one of
them it is a create, issued only against an initially empty slot of the
store. -/
def MonEncSafe (cl : Cluster) (w : WriteEvent) : Prop :=
  (w.target = Target.monConfigMap → w.op = WriteOp.create ∧ cl.monConfigMap = none) ∧
  (w.target = Target.encConfigMap → w.op = WriteOp.create ∧ cl.encConfigMap = none)

theorem monEncSafe_createOrUpdate {α : Type} [DecidableEq α] {cl : Cluster}
    {t : Target} {cur : Option α} {init : α} {mutate : α → α}
    (h1 : t ≠ Target.monConfigMap) (h2 : t ≠ Target.encConfigMap) :
    ∀ w ∈ (createOrUpdate t cur init mutate).2, MonEncSafe cl w := by
  intro w hw
  have h := createOrUpdate_writes_mem hw
  exact ⟨fun ht => absurd (h.symm.trans ht) h1, fun ht => absurd (h.symm.trans ht) h2⟩

theorem monEncSafe_createIfAbsent {α : Type} {cl : Cluster} {t : Target}
    {cur : Option α} {desired : α}
    (h1 : t ≠ Target.monConfigMap) (h2 : t ≠ Target.encConfigMap) :
    ∀ w ∈ (createIfAbsent t cur desired).2, MonEncSafe cl w := by
  intro w hw
  have h := createIfAbsent_writes_mem hw
  exact ⟨fun ht => absurd (h.1.symm.trans ht) h1, fun ht => absurd (h.1.symm.trans ht) h2⟩

theorem monEncSafe_monSlot {cl : Cluster} {cur : Option CMData} {desired : CMData}
    (hc : cur = cl.monConfigMap) :
    ∀ w ∈ (createIfAbsent Target.monConfigMap cur desired).2, MonEncSafe cl w := by
  intro w hw
  have h := createIfAbsent_writes_mem hw
  refine ⟨fun _ => ⟨h.2.1, hc.symm.trans h.2.2⟩, fun ht => ?_⟩
  have := h.1.symm.trans ht
  simp at this

theorem monEncSafe_encSlot {cl : Cluster} {cur : Option CMData} {desired : CMData}
    (hc : cur = cl.encConfigMap) :
    ∀ w ∈ (createIfAbsent Target.encConfigMap cur desired).2, MonEncSafe cl w := by
  intro w hw
  have h := createIfAbsent_writes_mem hw
  refine ⟨fun ht => ?_, fun _ => ⟨h.2.1, hc.symm.trans h.2.2⟩⟩
  have := h.1.symm.trans ht
  simp at this

theorem forall_mem_append {P : WriteEvent → Prop} {l1 l2 : List WriteEvent}
    (h1 : ∀ w ∈ l1, P w) (h2 : ∀ w ∈ l2, P w) : ∀ w ∈ l1 ++ l2, P w := by
  intro w hw
  rcases List.mem_append.1 hw with hw | hw
  · exact h1 w hw
  · exact h2 w hw

/-- The CSI branch obeys the write-once discipline for the monitoring and
encryption config maps: existing content is kept, and any write to either
slot is a create against an initially empty slot. -/
theorem stepCSI_writeOnce (ext : Externals) (cl : Cluster) :
    (∀ d, cl.monConfigMap = some d → (stepCSI ext cl).cluster.monConfigMap = some d) ∧
    (∀ d, cl.encConfigMap = some d → (stepCSI ext cl).cluster.encConfigMap = some d) ∧
    (∀ w ∈ (stepCSI ext cl).writes, MonEncSafe cl w) := by
  unfold stepCSI
  cases hv : cl.clusterVersion with
  | none => simp
  | some version =>
    dsimp only
    cases hs : ext.sidecarsOk version with
    | false =>
      rw [if_neg (by simp)]
      simp
    | true =>
      rw [if_pos rfl]
      have hws : ∀ w ∈
          ((createOrUpdate Target.scc cl.scc
              { resourceVersion := "", content := "" } (sccMutate ext.sccDesired)).2 ++
            (createIfAbsent Target.monConfigMap cl.monConfigMap [("config.json", "[]")]).2 ++
            (createIfAbsent Target.encConfigMap cl.encConfigMap [("config.json", "[]")]).2 ++
            (createOrUpdate Target.cephFSDeployment cl.cephFSDeployment
              ext.cephFSDeploymentDesired (fun _ => ext.cephFSDeploymentDesired)).2 ++
            (createOrUpdate Target.cephFSDaemonSet cl.cephFSDaemonSet
              ext.cephFSDaemonSetDesired (fun _ => ext.cephFSDaemonSetDesired)).2 ++
            (createOrUpdate Target.rbdDeployment cl.rbdDeployment
              ext.rbdDeploymentDesired (fun _ => ext.rbdDeploymentDesired)).2 ++
            (createOrUpdate Target.rbdDaemonSet cl.rbdDaemonSet
              ext.rbdDaemonSetDesired (fun _ => ext.rbdDaemonSetDesired)).2 ++
            (createIfAbsent Target.cephFSCSIDriver cl.cephFSCSIDriver ext.cephFSCSIDriverDesired).2 ++
            (createIfAbsent Target.rbdCSIDriver cl.rbdCSIDriver ext.rbdCSIDriverDesired).2),
          MonEncSafe cl w := by
        refine forall_mem_append (forall_mem_append (forall_mem_append (forall_mem_append
          (forall_mem_append (forall_mem_append (forall_mem_append (forall_mem_append
            (monEncSafe_createOrUpdate (by decide) (by decide))
            (monEncSafe_monSlot rfl))
            (monEncSafe_encSlot rfl))
            (monEncSafe_createOrUpdate (by decide) (by decide)))
            (monEncSafe_createOrUpdate (by decide) (by decide)))
            (monEncSafe_createOrUpdate (by decide) (by decide)))
            (monEncSafe_createOrUpdate (by decide) (by decide)))
            (monEncSafe_createIfAbsent (by decide) (by decide)))
            (monEncSafe_createIfAbsent (by decide) (by decide))
      split
      · refine ⟨?_, ?_, ?_⟩
        · intro d hd; simp [createIfAbsent, hd]
        · intro d hd; simp [createIfAbsent, hd]
        · exact hws
      · split
        · refine ⟨?_, ?_, ?_⟩
          · intro d hd; simp [createIfAbsent, hd]
          · intro d hd; simp [createIfAbsent, hd]
          · exact hws
        · refine ⟨?_, ?_, ?_⟩
          · intro d hd; simp [createIfAbsent, hd]
          · intro d hd; simp [createIfAbsent, hd]
          · exact forall_mem_append hws
              (monEncSafe_createOrUpdate (by decide) (by decide))

/-- Write-once discipline of both write-once slots under a pass fragment. -/
def WriteOnceOK (S : Cluster → Outcome) : Prop :=
  (∀ cl d, cl.monConfigMap = some d → (S cl).cluster.monConfigMap = some d) ∧
  (∀ cl d, cl.encConfigMap = some d → (S cl).cluster.encConfigMap = some d) ∧
  (∀ cl w, w ∈ (S cl).writes → MonEncSafe cl w)

theorem writeOnceOK_comp {S T : Cluster → Outcome}
    (hS : WriteOnceOK S) (hT : WriteOnceOK T) :
    WriteOnceOK (fun cl => (S cl).andThen T) := by
  refine ⟨?_, ?_, ?_⟩
  · intro cl d hd
    show ((S cl).andThen T).cluster.monConfigMap = some d
    cases he : (S cl).error with
    | some e => rw [andThen_some he]; exact hS.1 cl d hd
    | none => rw [andThen_none he]; exact hT.1 _ d (hS.1 cl d hd)
  · intro cl d hd
    show ((S cl).andThen T).cluster.encConfigMap = some d
    cases he : (S cl).error with
    | some e => rw [andThen_some he]; exact hS.2.1 cl d hd
    | none => rw [andThen_none he]; exact hT.2.1 _ d (hS.2.1 cl d hd)
  · intro cl w hw
    have hw2 : w ∈ ((S cl).andThen T).writes := hw
    clear hw
    cases he : (S cl).error with
    | some e => rw [andThen_some he] at hw2; exact hS.2.2 cl w hw2
    | none =>
      rw [andThen_none he] at hw2
      rcases List.mem_append.1 hw2 with hw3 | hw3
      · exact hS.2.2 cl w hw3
      · have h2 := hT.2.2 _ w hw3
        constructor
        · intro ht
          refine ⟨(h2.1 ht).1, ?_⟩
          cases hm : cl.monConfigMap with
          | none => rfl
          | some d =>
            have hp := hS.1 cl d hm
            have := (h2.1 ht).2
            rw [hp] at this
            simp at this
        · intro ht
          refine ⟨(h2.2 ht).1, ?_⟩
          cases hm : cl.encConfigMap with
          | none => rfl
          | some d =>
            have hp := hS.2.1 cl d hm
            have := (h2.2 ht).2
            rw [hp] at this
            simp at this

/-- A fragment that leaves the whole CSI slice alone and whose writes avoid
both write-once targets is write-once safe. -/
theorem writeOnceOK_of_frame {S : Cluster → Outcome}
    (hcl : ∀ cl, csiState (S cl).cluster = csiState cl)
    (hws : ∀ cl w, w ∈ (S cl).writes →
      w.target ≠ Target.monConfigMap ∧ w.target ≠ Target.encConfigMap) :
    WriteOnceOK S := by
  refine ⟨?_, ?_, ?_⟩
  · intro cl d hd
    have := congrArg (fun x => x.2.1) (hcl cl)
    simpa [csiState, hd] using this
  · intro cl d hd
    have := congrArg (fun x => x.2.2.1) (hcl cl)
    simpa [csiState, hd] using this
  · intro cl w hw
    exact ⟨fun ht => absurd ht (hws cl w hw).1, fun ht => absurd ht (hws cl w hw).2⟩

theorem stepWebhook_writeOnceOK (ext : Externals) (ns : String) :
    WriteOnceOK (stepWebhook ext ns) := by
  apply writeOnceOK_of_frame
  · intro cl
    exact (stepWebhook_spec ext ns cl).2.2.2.2.2.2.2.2.2.1
  · intro cl w hw
    have := (stepWebhook_spec ext ns cl).2.2.2.2.2.2.2.2.2.2 w hw
    rw [this]
    exact ⟨by decide, by decide⟩

theorem stepLabelSubscription_csi (cl : Cluster) :
    csiState (stepLabelSubscription cl).cluster = csiState cl ∧
    ∀ w ∈ (stepLabelSubscription cl).writes, w.target = Target.subscription := by
  unfold stepLabelSubscription
  split
  · simp [csiState]
  · split
    · simp [csiState]
    · simp [csiState]

theorem stepLabelSubscription_writeOnceOK : WriteOnceOK stepLabelSubscription := by
  apply writeOnceOK_of_frame
  · intro cl
    exact (stepLabelSubscription_csi cl).1
  · intro cl w hw
    have := (stepLabelSubscription_csi cl).2 w hw
    rw [this]
    exact ⟨by decide, by decide⟩

theorem stepConsole_csi (ext : Externals) (cl : Cluster) :
    csiState (stepConsole ext cl).cluster = csiState cl ∧
    ∀ w ∈ (stepConsole ext cl).writes,
      w.target = Target.nginxConfigMap ∨ w.target = Target.consoleService ∨
      w.target = Target.consolePlugin := by
  cases h : cl.consoleDeploymentExists with
  | false =>
    rw [stepConsole_missing ext h]
    simp [csiState]
  | true =>
    obtain ⟨-, -, -, -, -, -, hcsi, hws⟩ := stepConsole_spec ext h
    exact ⟨hcsi, hws⟩

theorem stepConsole_writeOnceOK (ext : Externals) : WriteOnceOK (stepConsole ext) := by
  apply writeOnceOK_of_frame
  · intro cl
    exact (stepConsole_csi ext cl).1
  · intro cl w hw
    rcases (stepConsole_csi ext cl).2 w hw with h | h | h <;> rw [h] <;>
      exact ⟨by decide, by decide⟩

theorem stepFlagAndCSI_writeOnceOK (ext : Externals) : WriteOnceOK (stepFlagAndCSI ext) := by
  refine ⟨?_, ?_, ?_⟩
  · intro cl d hd
    unfold stepFlagAndCSI
    split
    · exact hd
    · exact (stepCSI_writeOnce ext cl).1 d hd
    · exact hd
  · intro cl d hd
    unfold stepFlagAndCSI
    split
    · exact hd
    · exact (stepCSI_writeOnce ext cl).2.1 d hd
    · exact hd
  · intro cl w hw
    unfold stepFlagAndCSI at hw
    rcases hsp : getDeployCSIConfigState cl with ⟨b, oe⟩
    rw [hsp] at hw
    match b, oe with
    | _, some e => simp at hw
    | true, none => exact (stepCSI_writeOnce ext cl).2.2 w hw
    | false, none => simp at hw

/-- One full pass obeys the write-once discipline for both config maps. -/
theorem reconcile_writeOnceOK (ext : Externals) (ns : String) :
    WriteOnceOK (reconcile ext ns) :=
  writeOnceOK_comp
    (writeOnceOK_comp
      (writeOnceOK_comp (stepWebhook_writeOnceOK ext ns) stepLabelSubscription_writeOnceOK)
      (stepConsole_writeOnceOK ext))
    (stepFlagAndCSI_writeOnceOK ext)

theorem mk_andThen_none (c : Cluster) (ws : List WriteEvent) (f : Cluster → Outcome) :
    (Outcome.mk c ws none).andThen f
      = ⟨(f c).cluster, ws ++ (f c).writes, (f c).error⟩ := rfl

theorem mk_andThen_some (c : Cluster) (ws : List WriteEvent) (e : ReconcileErr)
    (f : Cluster → Outcome) :
    (Outcome.mk c ws (some e)).andThen f = ⟨c, ws, some e⟩ := rfl

/-- Decomposition of a pass whose first three steps succeed. -/
theorem reconcile_run (ext : Externals) (ns : String) (cl : Cluster)
    (h1 : (stepWebhook ext ns cl).error = none)
    (h2 : (stepLabelSubscription (stepWebhook ext ns cl).cluster).error = none)
    (h3 : (stepConsole ext
      (stepLabelSubscription (stepWebhook ext ns cl).cluster).cluster).error = none) :
    reconcile ext ns cl =
      ⟨(stepFlagAndCSI ext (stepConsole ext
          (stepLabelSubscription (stepWebhook ext ns cl).cluster).cluster).cluster).cluster,
        (stepWebhook ext ns cl).writes ++
          (stepLabelSubscription (stepWebhook ext ns cl).cluster).writes ++
          (stepConsole ext
            (stepLabelSubscription (stepWebhook ext ns cl).cluster).cluster).writes ++
          (stepFlagAndCSI ext (stepConsole ext
            (stepLabelSubscription (stepWebhook ext ns cl).cluster).cluster).cluster).writes,
        (stepFlagAndCSI ext (stepConsole ext
          (stepLabelSubscription (stepWebhook ext ns cl).cluster).cluster).cluster).error⟩ := by
  unfold reconcile
  rw [andThen_none h1, h2, mk_andThen_none, h3, mk_andThen_none]

/- Claim theorems. -/

/-- C1: for every operator configuration mapping, a present DEPLOY_CSI key
is parsed as a boolean, a non-boolean value yields an error (and false); an
absent key resolves to true when the storageclusters.ocs.openshift.io CRD
probe reports not-found, false when the CRD exists, and any probe failure
other than not-found is returned as an error. -/
theorem getDeployCSIConfig_resolve :
    (∀ (data : CMData) (crd : Except KErr Unit) (v : String),
      lookupKey data deployCSIKey = some v →
        ((∀ b, goParseBool v = .ok b →
            getDeployCSIConfig (.ok (some data)) crd = (b, none)) ∧
         (goParseBool v = .error () →
            getDeployCSIConfig (.ok (some data)) crd = (false, some .parseFailed)))) ∧
    (∀ (data : CMData) (crd : Except KErr Unit),
      lookupKey data deployCSIKey = none →
        ((crd = .error .notFound →
            getDeployCSIConfig (.ok (some data)) crd = (true, none)) ∧
         (crd = .ok () →
            getDeployCSIConfig (.ok (some data)) crd = (false, none)) ∧
         (∀ e, e ≠ KErr.notFound → crd = .error e →
            getDeployCSIConfig (.ok (some data)) crd
              = (false, some (.crdProbeFailed e))))) := by
  constructor
  · intro data crd v hv
    constructor
    · intro b hb
      simp [getDeployCSIConfig, hv, hb]
    · intro hb
      simp [getDeployCSIConfig, hv, hb]
  · intro data crd hv
    refine ⟨?_, ?_, ?_⟩
    · intro hc; subst hc
      simp [getDeployCSIConfig, hv]
    · intro hc; subst hc
      simp [getDeployCSIConfig, hv]
    · intro e he hc; subst hc
      simp [getDeployCSIConfig, hv, he]

theorem getDeployCSIConfig_resolve_witness :
    getDeployCSIConfig (.ok (some [("DEPLOY_CSI", "false")])) (.error .notFound)
      = (false, none) ∧
    getDeployCSIConfig (.ok (some [("DEPLOY_CSI", "maybe")])) (.ok ())
      = (false, some .parseFailed) ∧
    getDeployCSIConfig (.ok (some [])) (.error .notFound) = (true, none) ∧
    getDeployCSIConfig (.ok (some [])) (.ok ()) = (false, none) ∧
    getDeployCSIConfig (.ok (some [])) (.error .internalErr)
      = (false, some (.crdProbeFailed .internalErr)) :=
  ⟨(getDeployCSIConfig_resolve.1 [("DEPLOY_CSI", "false")] (.error .notFound) "false"
      (by decide)).1 false rfl,
   (getDeployCSIConfig_resolve.1 [("DEPLOY_CSI", "maybe")] (.ok ()) "maybe"
      (by decide)).2 rfl,
   (getDeployCSIConfig_resolve.2 [] (.error .notFound) (by decide)).1 rfl,
   (getDeployCSIConfig_resolve.2 [] (.ok ()) (by decide)).2.1 rfl,
   (getDeployCSIConfig_resolve.2 [] (.error .internalErr) (by decide)).2.2
      .internalErr (by decide) rfl⟩

/-- C2 counterexample: the flag-resolution read of `getDeployCSIConfig` does
NOT convert a NotFound config-map get into an empty mapping: with the config
map absent and the CRD also absent it returns an error, not the claimed
successful `true`. -/
theorem getDeployCSIConfig_notFound_counterexample :
    getDeployCSIConfig (.error .notFound) (.error .notFound)
      = (false, some (.getConfigMapFailed .notFound)) ∧
    ¬ getDeployCSIConfig (.error .notFound) (.error .notFound) = (true, none) := by
  decide

/-- C2 amended: only the metrics-label read (`getOperatorConfig`) converts a
NotFound result into an empty mapping and proceeds; the flag-resolution read
in `getDeployCSIConfig` propagates every config-map get error, NotFound
included, so with the config map absent the flag resolution fails the pass
instead of running the CRD probe. -/
theorem configMap_absence_amended :
    (∀ e : KErr, getOperatorConfig (.error e)
      = if e = KErr.notFound then .ok [] else .error e) ∧
    (∀ cm : CMData, getOperatorConfig (.ok cm) = .ok cm) ∧
    (∀ (e : KErr) (crd : Except KErr Unit),
      getDeployCSIConfig (.error e) crd = (false, some (.getConfigMapFailed e))) :=
  ⟨fun _ => rfl, fun _ => rfl, fun _ _ => rfl⟩

/-- C3: for every existing webhook configuration whose first webhook has a
non-empty CA bundle, the mutate function of
`reconcileSubscriptionValidatingWebhook` keeps that bundle byte-for-byte
(never downgrading it to empty) while overwriting the other webhook fields
with the desired state derived from the template. -/
theorem webhook_sticky_caBundle (operatorNamespace : String) (tmpl : ValidatingWebhook)
    (cfg : ValidatingWebhookConfiguration) (w : ValidatingWebhook)
    (rest : List ValidatingWebhook) (hw : cfg.webhooks = w :: rest)
    (hne : w.clientConfig.caBundle ≠ []) :
    ∃ wh : ValidatingWebhook,
      (reconcileSubscriptionValidatingWebhookMutate operatorNamespace tmpl cfg).webhooks
        = wh :: rest ∧
      wh.clientConfig.caBundle = w.clientConfig.caBundle ∧
      wh.clientConfig.caBundle ≠ [] ∧
      wh.name = cfg.name ∧
      wh.namespaceSelector = some [("kubernetes.io/metadata.name", operatorNamespace)] ∧
      wh.objectSelector = some [(subscriptionLabelKey, subscriptionLabelValue)] ∧
      wh.clientConfig.serviceNamespace = operatorNamespace ∧
      wh.clientConfig.serviceName = tmpl.clientConfig.serviceName ∧
      wh.clientConfig.servicePath = tmpl.clientConfig.servicePath ∧
      wh.rules = tmpl.rules ∧
      wh.failurePolicy = tmpl.failurePolicy ∧
      wh.sideEffects = tmpl.sideEffects ∧
      wh.timeoutSeconds = tmpl.timeoutSeconds := by
  unfold reconcileSubscriptionValidatingWebhookMutate
  rw [hw]
  exact ⟨_, rfl, rfl, hne, rfl, rfl, rfl, rfl, rfl, rfl, rfl, rfl, rfl, rfl⟩

/-- A concrete webhook template for the C3 witness. -/
def tmplW : ValidatingWebhook :=
  { name := "template"
    clientConfig :=
      { caBundle := [], serviceNamespace := "", serviceName := "webhook-server",
        servicePath := "/validate" }
    namespaceSelector := none
    objectSelector := none
    rules := ["subscription-rule"]
    failurePolicy := "Fail"
    sideEffects := "None"
    timeoutSeconds := 30 }

/-- A concrete existing webhook with an injected CA bundle, for the C3 witness. -/
def whW : ValidatingWebhook :=
  { tmplW with clientConfig := { tmplW.clientConfig with caBundle := [1, 2, 3] } }

/-- A concrete existing webhook configuration for the C3 witness. -/
def cfgW : ValidatingWebhookConfiguration :=
  { name := subscriptionWebhookName, annotations := [], webhooks := [whW] }

theorem webhook_sticky_caBundle_witness :
    ∃ wh : ValidatingWebhook,
      (reconcileSubscriptionValidatingWebhookMutate "openshift-storage" tmplW cfgW).webhooks
        = wh :: [] ∧
      wh.clientConfig.caBundle = whW.clientConfig.caBundle ∧
      wh.clientConfig.caBundle ≠ [] ∧
      wh.name = cfgW.name ∧
      wh.namespaceSelector = some [("kubernetes.io/metadata.name", "openshift-storage")] ∧
      wh.objectSelector = some [(subscriptionLabelKey, subscriptionLabelValue)] ∧
      wh.clientConfig.serviceNamespace = "openshift-storage" ∧
      wh.clientConfig.serviceName = tmplW.clientConfig.serviceName ∧
      wh.clientConfig.servicePath = tmplW.clientConfig.servicePath ∧
      wh.rules = tmplW.rules ∧
      wh.failurePolicy = tmplW.failurePolicy ∧
      wh.sideEffects = tmplW.sideEffects ∧
      wh.timeoutSeconds = tmplW.timeoutSeconds :=
  webhook_sticky_caBundle "openshift-storage" tmplW cfgW whW [] rfl (by decide)

/-- C5: `applyLabels` splits on newlines, skips empty lines, splits each
line at the first colon, trims both sides, and produces the map; on the
concrete input with two labelled lines and a trailing blank line it yields
exactly the two trimmed pairs. -/
theorem applyLabels_example :
    applyLabels "team: storage\nenv:  prod\n\n"
      = some [("team", "storage"), ("env", "prod")] := by
  decide

theorem foldl_applyLabelsFold_none (L : List (List Char)) :
    L.foldl applyLabelsFold none = none := by
  induction L with
  | nil => rfl
  | cons l L ih => simpa [applyLabelsFold] using ih

theorem foldl_applyLabels_isSome (L : List (List Char))
    (h : ∀ l ∈ L, l ≠ [] → l.contains ':') (m : LabelMap) :
    (L.foldl applyLabelsFold (some m)).isSome := by
  induction L generalizing m with
  | nil => rfl
  | cons l L ih =>
    have hrest : ∀ x ∈ L, x ≠ [] → x.contains ':' :=
      fun x hx => h x (List.mem_cons_of_mem _ hx)
    match l with
    | [] =>
      have h0 : applyLabelsFold (some m) [] = some m := rfl
      simpa [List.foldl, h0] using ih hrest m
    | a :: as =>
      have hc : (a :: as).contains ':' := h (a :: as) (List.mem_cons_self _ _) (by simp)
      have hline : applyLabelsFold (some m) (a :: as)
          = some (mapInsert m
              (String.mk (trimSpaceChars ((a :: as).takeWhile (fun c => c ≠ ':'))))
              (String.mk (trimSpaceChars (((a :: as).dropWhile (fun c => c ≠ ':')).tail)))) := by
        show applyLabelsLine m (a :: as) = _
        unfold applyLabelsLine splitN2Colon
        rw [if_pos hc]
        rfl
      rw [List.foldl_cons, hline]
      exact ih hrest _

/-- C6: whenever every non-empty line of the input contains a colon,
`applyLabels` completes normally; and there is an input with a colon-free
non-empty line on which the `parts[1]` access is out of bounds (the panic
modelled as `none`). -/
theorem applyLabels_safety :
    (∀ label : String,
      (∀ l ∈ splitOnChar '\n' label.toList, l ≠ [] → l.contains ':') →
      (applyLabels label).isSome) ∧
    applyLabels "team: storage\nnocolonline\n" = none := by
  constructor
  · intro label h
    exact foldl_applyLabels_isSome _ h []
  · decide

theorem applyLabels_safety_witness :
    (applyLabels "a:b\nc:d").isSome ∧
    applyLabels "team: storage\nnocolonline\n" = none :=
  ⟨applyLabels_safety.1 "a:b\nc:d" (by decide), applyLabels_safety.2⟩

/-- C8: every change event on the four secondary watched kinds that passes
its predicate filter is mapped to exactly one request for the constant
trigger name "version", never the own identity of the changed object; the
config-map events are additionally filtered to the operator namespace and
the well-known config-map name. -/
theorem event_routing_canonical :
    (∀ (opNs : String) (o : WatchedObject),
      (routeConfigMapEvent opNs o ≠ [] ↔
        (o.nspace = opNs ∧ o.name = operatorConfigMapName)) ∧
      (routeConfigMapEvent opNs o ≠ [] →
        routeConfigMapEvent opNs o = [{ nspace := "", name := "version" }])) ∧
    (∀ o : WatchedObject, routeCRDEvent o = [{ nspace := "", name := "version" }]) ∧
    (∀ (opNs : String) (o : WatchedObject) (oldL newL : LabelMap),
      routeSubscriptionEvent opNs o oldL newL ≠ [] →
        routeSubscriptionEvent opNs o oldL newL
          = [{ nspace := "", name := "version" }]) ∧
    (∀ o : WatchedObject, routeWebhookEvent o ≠ [] →
      routeWebhookEvent o = [{ nspace := "", name := "version" }]) ∧
    clusterVersionName = "version" := by
  refine ⟨?_, ?_, ?_, ?_, rfl⟩
  · intro opNs o
    refine ⟨⟨?_, ?_⟩, ?_⟩
    · intro hne
      by_cases h : configMapPredicate opNs o = true
      · have h2 := h
        unfold configMapPredicate at h2
        simp only [Bool.and_eq_true, decide_eq_true_eq] at h2
        exact h2
      · unfold routeConfigMapEvent at hne
        rw [if_neg h] at hne
        exact absurd rfl hne
    · rintro ⟨h1, h2⟩
      unfold routeConfigMapEvent
      rw [if_pos (show configMapPredicate opNs o = true by
        unfold configMapPredicate; rw [h1, h2]; simp)]
      simp [enqueueClusterVersionRequest]
    · intro hne
      unfold routeConfigMapEvent at hne ⊢
      split
      · rfl
      · next h =>
        rw [if_neg h] at hne
        exact absurd rfl hne
  · intro o
    rfl
  · intro opNs o oldL newL hne
    unfold routeSubscriptionEvent at hne ⊢
    split
    · rfl
    · next h =>
      rw [if_neg h] at hne
      exact absurd rfl hne
  · intro o hne
    unfold routeWebhookEvent at hne ⊢
    split
    · rfl
    · next h =>
      rw [if_neg h] at hne
      exact absurd rfl hne

theorem event_routing_canonical_witness :
    routeConfigMapEvent "openshift-storage"
      { nspace := "openshift-storage", name := "ocs-client-operator-config" }
      = [{ nspace := "", name := "version" }] ∧
    routeCRDEvent { nspace := "", name := "storageclusters.ocs.openshift.io" }
      = [{ nspace := "", name := "version" }] ∧
    routeSubscriptionEvent "openshift-storage"
      { nspace := "openshift-storage", name := "sub" } [] [("managed-by", "x")]
      = [{ nspace := "", name := "version" }] ∧
    routeWebhookEvent { nspace := "", name := subscriptionWebhookName }
      = [{ nspace := "", name := "version" }] :=
  ⟨(event_routing_canonical.1 "openshift-storage"
      { nspace := "openshift-storage", name := "ocs-client-operator-config" }).2
      (by decide),
   event_routing_canonical.2.1 _,
   event_routing_canonical.2.2.1 "openshift-storage"
      { nspace := "openshift-storage", name := "sub" } [] [("managed-by", "x")]
      (by decide),
   event_routing_canonical.2.2.2.1 { nspace := "", name := subscriptionWebhookName }
      (by decide)⟩

/-- C4: a pass issues a create for the monitoring and encryption config maps
only when the map is absent (the AlreadyExists rejection is swallowed) and
never issues an update; hence any existing content of those two maps
survives any number of passes, even though the desired content is the fixed
config.json entry. -/
theorem writeOnce_configMaps :
    (∀ (ext : Externals) (ns : String) (cl : Cluster) (d : CMData) (n : Nat),
      cl.monConfigMap = some d →
        (reconcile ext ns cl).cluster.monConfigMap = some d ∧
        ((fun c => (reconcile ext ns c).cluster)^[n] cl).monConfigMap = some d) ∧
    (∀ (ext : Externals) (ns : String) (cl : Cluster) (d : CMData) (n : Nat),
      cl.encConfigMap = some d →
        (reconcile ext ns cl).cluster.encConfigMap = some d ∧
        ((fun c => (reconcile ext ns c).cluster)^[n] cl).encConfigMap = some d) ∧
    (∀ (ext : Externals) (ns : String) (cl : Cluster) (w : WriteEvent),
      w ∈ (reconcile ext ns cl).writes →
        (w.target = Target.monConfigMap →
          w.op = WriteOp.create ∧ cl.monConfigMap = none) ∧
        (w.target = Target.encConfigMap →
          w.op = WriteOp.create ∧ cl.encConfigMap = none)) := by
  have hiter_mon : ∀ (ext : Externals) (ns : String) (n : Nat) (cl : Cluster) (d : CMData),
      cl.monConfigMap = some d →
      ((fun c => (reconcile ext ns c).cluster)^[n] cl).monConfigMap = some d := by
    intro ext ns n
    induction n with
    | zero => intro cl d hd; simpa using hd
    | succ k ih =>
      intro cl d hd
      rw [Function.iterate_succ_apply]
      exact ih _ d ((reconcile_writeOnceOK ext ns).1 cl d hd)
  have hiter_enc : ∀ (ext : Externals) (ns : String) (n : Nat) (cl : Cluster) (d : CMData),
      cl.encConfigMap = some d →
      ((fun c => (reconcile ext ns c).cluster)^[n] cl).encConfigMap = some d := by
    intro ext ns n
    induction n with
    | zero => intro cl d hd; simpa using hd
    | succ k ih =>
      intro cl d hd
      rw [Function.iterate_succ_apply]
      exact ih _ d ((reconcile_writeOnceOK ext ns).2.1 cl d hd)
  refine ⟨?_, ?_, ?_⟩
  · intro ext ns cl d n hd
    exact ⟨(reconcile_writeOnceOK ext ns).1 cl d hd, hiter_mon ext ns n cl d hd⟩
  · intro ext ns cl d n hd
    exact ⟨(reconcile_writeOnceOK ext ns).2.1 cl d hd, hiter_enc ext ns n cl d hd⟩
  · intro ext ns cl w hw
    exact (reconcile_writeOnceOK ext ns).2.2 cl w hw

/-- Concrete desired-state inputs for the state-model witnesses. -/
def extW : Externals :=
  { subscriptionWebhookTemplate := tmplW
    nginxConf := "nginx-conf"
    consoleServiceDesired := "console-service"
    consolePluginDesired := { resourceVersion := "", content := "plugin" }
    sccDesired := { resourceVersion := "", content := "scc-desired" }
    cephFSDeploymentDesired := { content := "cephfs-deployment" }
    cephFSDaemonSetDesired := { content := "cephfs-daemonset" }
    rbdDeploymentDesired := { content := "rbd-deployment" }
    rbdDaemonSetDesired := { content := "rbd-daemonset" }
    cephFSCSIDriverDesired := { content := "cephfs-driver" }
    rbdCSIDriverDesired := { content := "rbd-driver" }
    prometheusRuleContent := some "prom-rule"
    sidecarsOk := fun _ => true }

/-- A concrete subscription carrying the operator package. -/
def subW : Subscription :=
  { name := "odf-sub", package := "ocs-client-operator", labels := [] }

/-- A concrete bootstrap store: config map present and empty, CRD absent. -/
def clBaseW : Cluster :=
  { webhookConfiguration := none
    subscriptions := [subW]
    consoleDeploymentExists := true
    nginxConfigMap := none
    consoleService := none
    consolePlugin := none
    operatorConfigMap := some []
    storageClusterCRDExists := false
    clusterVersion := some "4.16.0"
    scc := none
    monConfigMap := none
    encConfigMap := none
    cephFSDeployment := none
    cephFSDaemonSet := none
    rbdDeployment := none
    rbdDaemonSet := none
    cephFSCSIDriver := none
    rbdCSIDriver := none
    prometheusRule := none }

/-- The bootstrap store with externally-set write-once map contents. -/
def clMonW : Cluster :=
  { clBaseW with
    monConfigMap := some [("config.json", "custom-mon")]
    encConfigMap := some [("config.json", "custom-enc")] }

theorem writeOnce_configMaps_witness :
    ((reconcile extW "openshift-storage" clMonW).cluster.monConfigMap
        = some [("config.json", "custom-mon")] ∧
      ((fun c => (reconcile extW "openshift-storage" c).cluster)^[2] clMonW).monConfigMap
        = some [("config.json", "custom-mon")]) ∧
    ((reconcile extW "openshift-storage" clMonW).cluster.encConfigMap
        = some [("config.json", "custom-enc")] ∧
      ((fun c => (reconcile extW "openshift-storage" c).cluster)^[2] clMonW).encConfigMap
        = some [("config.json", "custom-enc")]) ∧
    ((⟨Target.monConfigMap, WriteOp.create⟩ : WriteEvent).op = WriteOp.create ∧
      clBaseW.monConfigMap = none) :=
  ⟨writeOnce_configMaps.1 extW "openshift-storage" clMonW [("config.json", "custom-mon")] 2 rfl,
   writeOnce_configMaps.2.1 extW "openshift-storage" clMonW [("config.json", "custom-enc")] 2 rfl,
   (writeOnce_configMaps.2.2 extW "openshift-storage" clBaseW
      ⟨Target.monConfigMap, WriteOp.create⟩ (by decide)).1 rfl⟩

/-- C7: when the first three steps can succeed and the flag resolution
succeeds with false, the pass returns no error, leaves every CSI-managed
resource exactly as it was (nothing deleted), and every write of the pass
targets only the webhook, subscription, or console resources. -/
theorem reconcile_disabled_noop (ext : Externals) (ns : String) (cl : Cluster)
    (hsub : (cl.subscriptions.find? isClientOperatorSubscription).isSome)
    (hcon : cl.consoleDeploymentExists = true)
    (hflag : getDeployCSIConfigState cl = (false, none)) :
    (reconcile ext ns cl).error = none ∧
    csiState (reconcile ext ns cl).cluster = csiState cl ∧
    ∀ w ∈ (reconcile ext ns cl).writes,
      w.target = Target.webhookConfiguration ∨ w.target = Target.subscription ∨
      w.target = Target.nginxConfigMap ∨ w.target = Target.consoleService ∨
      w.target = Target.consolePlugin := by
  obtain ⟨sub, hsub2⟩ := Option.isSome_iff_exists.1 hsub
  obtain ⟨swe, swsub, swcon, swng, swsv, swpl, swop, swcrd, swv, swcsi, sww⟩ :=
    stepWebhook_spec ext ns cl
  have hfind1 : (stepWebhook ext ns cl).cluster.subscriptions.find?
      isClientOperatorSubscription = some sub := by
    rw [swsub]; exact hsub2
  obtain ⟨sle, slwh, slcon, slng, slsv, slpl, slop, slcrd, slv, slcsi, slw, sliff⟩ :=
    stepLabelSubscription_some_spec hfind1
  have hcon2 : (stepLabelSubscription
      (stepWebhook ext ns cl).cluster).cluster.consoleDeploymentExists = true := by
    rw [slcon, swcon]; exact hcon
  obtain ⟨sce, scwh, scsub, scop, sccrd, scv, sccsi, scw⟩ := stepConsole_spec ext hcon2
  have hop : (stepConsole ext (stepLabelSubscription
      (stepWebhook ext ns cl).cluster).cluster).cluster.operatorConfigMap
      = cl.operatorConfigMap := by
    rw [scop, slop, swop]
  have hcrd : (stepConsole ext (stepLabelSubscription
      (stepWebhook ext ns cl).cluster).cluster).cluster.storageClusterCRDExists
      = cl.storageClusterCRDExists := by
    rw [sccrd, slcrd, swcrd]
  have hflag3 : getDeployCSIConfigState (stepConsole ext (stepLabelSubscription
      (stepWebhook ext ns cl).cluster).cluster).cluster = (false, none) := by
    rw [getDeployCSIConfigState_congr hop hcrd]
    exact hflag
  rw [reconcile_run ext ns cl swe sle sce, stepFlagAndCSI_false ext hflag3]
  dsimp only
  refine ⟨rfl, ?_, ?_⟩
  · rw [sccsi, slcsi, swcsi]
  · rw [List.append_nil]
    refine forall_mem_append (forall_mem_append ?_ ?_) ?_
    · intro w hw
      exact Or.inl (sww w hw)
    · intro w hw
      rw [slw w hw]
      exact Or.inr (Or.inl rfl)
    · intro w hw
      rcases scw w hw with h | h | h
      · exact Or.inr (Or.inr (Or.inl h))
      · exact Or.inr (Or.inr (Or.inr (Or.inl h)))
      · exact Or.inr (Or.inr (Or.inr (Or.inr h)))

/-- The bootstrap store with the flag explicitly off and existing CSI
resources that must be left alone. -/
def clDisabledW : Cluster :=
  { clBaseW with
    operatorConfigMap := some [("DEPLOY_CSI", "false")]
    monConfigMap := some [("config.json", "keep-mon")]
    scc := some { resourceVersion := "7", content := "keep-scc" } }

theorem reconcile_disabled_noop_witness :
    (reconcile extW "openshift-storage" clDisabledW).error = none ∧
    csiState (reconcile extW "openshift-storage" clDisabledW).cluster
      = csiState clDisabledW ∧
    ∀ w ∈ (reconcile extW "openshift-storage" clDisabledW).writes,
      w.target = Target.webhookConfiguration ∨ w.target = Target.subscription ∨
      w.target = Target.nginxConfigMap ∨ w.target = Target.consoleService ∨
      w.target = Target.consolePlugin :=
  reconcile_disabled_noop extW "openshift-storage" clDisabledW (by decide) rfl (by decide)

/-- C10: with no subscription of package ocs-client-operator in the operator
namespace the pass fails at the labeling step, before the console-plugin and
CSI steps run (only the already-performed webhook write exists, the console
and CSI resources are untouched); when such a subscription exists, an update
is issued only if the fixed managed-by label was not already present with
the webhook value. -/
theorem labelSubscription_gate :
    (∀ (ext : Externals) (ns : String) (cl : Cluster),
      cl.subscriptions.find? isClientOperatorSubscription = none →
        (reconcile ext ns cl).error = some ReconcileErr.subscriptionNotFound ∧
        (reconcile ext ns cl).cluster.nginxConfigMap = cl.nginxConfigMap ∧
        (reconcile ext ns cl).cluster.consoleService = cl.consoleService ∧
        (reconcile ext ns cl).cluster.consolePlugin = cl.consolePlugin ∧
        csiState (reconcile ext ns cl).cluster = csiState cl ∧
        ∀ w ∈ (reconcile ext ns cl).writes, w.target = Target.webhookConfiguration) ∧
    (∀ (cl : Cluster) (sub : Subscription),
      cl.subscriptions.find? isClientOperatorSubscription = some sub →
        ((stepLabelSubscription cl).writes = [] ↔
          lookupKey sub.labels subscriptionLabelKey = some subscriptionLabelValue) ∧
        ∀ w ∈ (stepLabelSubscription cl).writes,
          w = ⟨Target.subscription, WriteOp.update⟩) := by
  constructor
  · intro ext ns cl hf
    obtain ⟨swe, swsub, swcon, swng, swsv, swpl, swop, swcrd, swv, swcsi, sww⟩ :=
      stepWebhook_spec ext ns cl
    have hf1 : (stepWebhook ext ns cl).cluster.subscriptions.find?
        isClientOperatorSubscription = none := by
      rw [swsub]; exact hf
    unfold reconcile
    rw [andThen_none swe, stepLabelSubscription_none hf1]
    dsimp only
    rw [mk_andThen_some, mk_andThen_some]
    refine ⟨rfl, swng, swsv, swpl, swcsi, ?_⟩
    rw [List.append_nil]
    exact sww
  · intro cl sub hf
    obtain ⟨-, -, -, -, -, -, -, -, -, -, slw, sliff⟩ :=
      stepLabelSubscription_some_spec hf
    exact ⟨sliff, slw⟩

/-- A store without any ocs-client-operator subscription. -/
def clNoSubW : Cluster := { clBaseW with subscriptions := [] }

/-- A subscription already carrying the webhook label. -/
def subLabeledW : Subscription :=
  { subW with labels := [(subscriptionLabelKey, subscriptionLabelValue)] }

/-- A store whose subscription is already labeled. -/
def clLabeledW : Cluster := { clBaseW with subscriptions := [subLabeledW] }

theorem labelSubscription_gate_witness :
    ((reconcile extW "openshift-storage" clNoSubW).error
        = some ReconcileErr.subscriptionNotFound ∧
      (reconcile extW "openshift-storage" clNoSubW).cluster.nginxConfigMap
        = clNoSubW.nginxConfigMap ∧
      (reconcile extW "openshift-storage" clNoSubW).cluster.consoleService
        = clNoSubW.consoleService ∧
      (reconcile extW "openshift-storage" clNoSubW).cluster.consolePlugin
        = clNoSubW.consolePlugin ∧
      csiState (reconcile extW "openshift-storage" clNoSubW).cluster
        = csiState clNoSubW ∧
      ∀ w ∈ (reconcile extW "openshift-storage" clNoSubW).writes,
        w.target = Target.webhookConfiguration) ∧
    (((stepLabelSubscription clLabeledW).writes = [] ↔
        lookupKey subLabeledW.labels subscriptionLabelKey
          = some subscriptionLabelValue) ∧
      ∀ w ∈ (stepLabelSubscription clLabeledW).writes,
        w = ⟨Target.subscription, WriteOp.update⟩) :=
  ⟨labelSubscription_gate.1 extW "openshift-storage" clNoSubW (by decide),
   labelSubscription_gate.2 clLabeledW subLabeledW (by decide)⟩

/-- C9: the mutate functions of the two fully-overwritten singletons (the
SecurityContextConstraints and the ConsolePlugin) restore the resource
version read before the overwrite: the post-mutation token equals the
pre-mutation one while the content takes the freshly computed desired
value. -/
theorem sticky_resourceVersion :
    (∀ (desired scc : SecurityContextConstraints),
      (sccMutate desired scc).resourceVersion = scc.resourceVersion ∧
      (sccMutate desired scc).content = desired.content) ∧
    (∀ (desired cp : ConsolePlugin),
      (consolePluginMutate desired cp).resourceVersion = cp.resourceVersion ∧
      (consolePluginMutate desired cp).content = desired.content) :=
  ⟨fun _ _ => ⟨rfl, rfl⟩, fun _ _ => ⟨rfl, rfl⟩⟩

end OCS
